import Mathlib

/-!
Verification of the DA certificate / keyset subsystem of `carrychair/nitro`.

Shallow embedding of `daprovider/das/dasutil/dasutil.go` and of the signed
Redis cache (`RedisStorageService`).  Bytes are modelled as `Nat` values
(< 256 where it matters), byte strings as `List Nat`, machine `uint64`
arithmetic as `Nat` with explicit `% 2 ^ 64` at the points where Go wraps.
The BLS signature library, the `dastree` hash module and the preimage
recorder are external to the sources under verification and are therefore
abstracted as parameters (`DasEnv`), exactly the operations the Go code
calls on them.
-/

set_option maxRecDepth 100000

namespace DasSpec

/-- Big-endian interpretation of a byte string (models `binary.BigEndian.Uint64`
on 8-byte inputs). -/
def beU64 (l : List Nat) : Nat :=
  l.foldl (fun a b => a * 256 + b) 0

/-- Big-endian encoding of `v` on `n` bytes (models `binary.BigEndian.PutUint64`
for `n = 8`): the last byte is the least significant one. -/
def beBytes : Nat → Nat → List Nat
  | 0, _ => []
  | n + 1, v => beBytes n (v / 256) ++ [v % 256]

/-- Reading one byte from a stream (models `bufio.Reader.ReadByte`, which
fails at end of input). -/
def readByte : List Nat → Except String (Nat × List Nat)
  | [] => .error "EOF"
  | b :: rest => .ok (b, rest)

/-- Reading exactly `n` bytes from a stream (models `io.ReadFull`, which fails
when fewer than `n` bytes remain). -/
def readN (n : Nat) (l : List Nat) : Except String (List Nat × List Nat) :=
  if l.length < n then .error "unexpected EOF"
  else .ok (l.take n, l.drop n)

/-- Modelled from the spec: `util.Uint64FromReader` is not under `src/`; the
keyset wire format (spec 4.2) reads big-endian `u64` fields. -/
def readUint64 (l : List Nat) : Except String (Nat × List Nat) :=
  match readN 8 l with
  | .error e => .error e
  | .ok (bs, rest) => .ok (beU64 bs, rest)

/-- Reading exactly two bytes (models `io.ReadFull(rd, buf2)` with a 2-byte
buffer in `DeserializeKeyset`). -/
def read2 : List Nat → Except String (Nat × Nat × List Nat)
  | b0 :: b1 :: rest => .ok (b0, b1, rest)
  | _ => .error "unexpected EOF"

/-- Modelled from the spec: the `daprovider` header-flag constants are not
under `src/`.  Spec 4.3: byte 0 of a serialized certificate has the DA
header bit always set and the TREE bit set iff `version != 0`. -/
def DASMessageHeaderFlag : Nat := 128

/-- Modelled from the spec: the TREE flag bit of the certificate header byte
(spec 4.3). -/
def TreeDASMessageHeaderFlag : Nat := 8

/-- Modelled from the spec: `daprovider.IsDASMessageHeaderByte` tests the DA
header bit of the leading flag byte. -/
def isDASMessageHeaderByte (b : Nat) : Bool := b.testBit 7

/-- Modelled from the spec: `daprovider.IsTreeDASMessageHeaderByte` tests the
TREE bit of the leading flag byte. -/
def isTreeDASMessageHeaderByte (b : Nat) : Bool := b.testBit 3

/-- The operations the `dasutil` code calls on its collaborators: the
`blsSignatures` library, the `dastree` hash module, the preimage recorder
(`daprovider.RecordPreimagesTo` / `dastree.RecordHash`), the `DASReader`
and the `DASKeysetFetcher`.  All of them live outside
`src/daprovider/das/dasutil` and are black boxes to this code, so they are
parameters of the embedding.  `σ` is the type of BLS signatures, `κ` of BLS
public keys, `π` of preimage maps. -/
structure DasEnv (σ κ π : Type) where
  keccak : List Nat → List Nat
  treeHash : List Nat → List Nat
  flatToTree : List Nat → List Nat
  flatToTreeLeaf : List Nat → List Nat
  recordHash : π → List Nat → π
  record : π → List Nat → List Nat → π
  sigFromBytes : List Nat → Except String σ
  sigToBytes : σ → List Nat
  pubKeyFromBytes : List Nat → Bool → Except String κ
  aggregatePublicKeys : List κ → κ
  verifySig : σ → List Nat → κ → Except String Bool
  reader : List Nat → Except String (List Nat)
  keysetFetcher : List Nat → Except String (List Nat)

/-- `dasutil.DataAvailabilityCertificate`: hashes are 32-byte strings,
`Timeout` and `SignersMask` are `uint64` values, `Version` a byte. -/
structure DataAvailabilityCertificate (σ : Type) where
  keysetHash : List Nat
  dataHash : List Nat
  timeout : Nat
  signersMask : Nat
  sig : σ
  version : Nat

/-- The Go constant `MinLifetimeSecondsForDataAvailabilityCert = 7*24*60*60`. -/
def MinLifetimeSecondsForDataAvailabilityCert : Nat := 7 * 24 * 60 * 60

/-- `(*DataAvailabilityCertificate).SerializeSignableFields`: appends the data
hash, the big-endian timeout, and the version byte when nonzero. -/
def SerializeSignableFields {σ : Type} (c : DataAvailabilityCertificate σ) : List Nat :=
  let buf : List Nat := []
  let buf := buf ++ c.dataHash
  let buf := buf ++ beBytes 8 c.timeout
  if c.version ≠ 0 then buf ++ [c.version] else buf

/-- `dasutil.Serialize`: header flag byte, keyset hash, signable fields,
big-endian signers mask, then the 96 signature bytes. -/
def Serialize {σ κ π : Type} (env : DasEnv σ κ π) (c : DataAvailabilityCertificate σ) :
    List Nat :=
  let flags := if c.version ≠ 0
    then DASMessageHeaderFlag ||| TreeDASMessageHeaderFlag
    else DASMessageHeaderFlag
  [flags] ++ c.keysetHash ++ SerializeSignableFields c
    ++ beBytes 8 c.signersMask ++ env.sigToBytes c.sig

/-- `dasutil.DeserializeDASCertFrom`: header byte (must carry the DA bit),
32-byte keyset hash, 32-byte data hash, 8-byte big-endian timeout, a version
byte iff the TREE bit is set, 8-byte big-endian signers mask, 96 signature
bytes parsed by the BLS library. -/
def DeserializeDASCertFrom {σ κ π : Type} (env : DasEnv σ κ π) (input : List Nat) :
    Except String (DataAvailabilityCertificate σ) :=
  match readByte input with
  | .error e => .error e
  | .ok (header, r0) =>
    if !isDASMessageHeaderByte header then
      .error "tried to deserialize a message that doesn't have the DAS header"
    else
      match readN 32 r0 with
      | .error e => .error e
      | .ok (keysetHash, r1) =>
        match readN 32 r1 with
        | .error e => .error e
        | .ok (dataHash, r2) =>
          match readN 8 r2 with
          | .error e => .error e
          | .ok (timeoutBytes, r3) =>
            let afterVersion : Except String (Nat × List Nat) :=
              if isTreeDASMessageHeaderByte header then
                match readByte r3 with
                | .error e => .error e
                | .ok (vb, r4) => .ok (vb, r4)
              else .ok (0, r3)
            match afterVersion with
            | .error e => .error e
            | .ok (version, r4) =>
              match readN 8 r4 with
              | .error e => .error e
              | .ok (maskBytes, r5) =>
                match readN 96 r5 with
                | .error e => .error e
                | .ok (sigBytes, _) =>
                  match env.sigFromBytes sigBytes with
                  | .error e => .error e
                  | .ok sig =>
                    .ok { keysetHash := keysetHash
                          dataHash := dataHash
                          timeout := beU64 timeoutBytes
                          signersMask := beU64 maskBytes
                          sig := sig
                          version := version }

/-- `dasutil.DataAvailabilityKeyset`. -/
structure DataAvailabilityKeyset (κ : Type) where
  assumedHonest : Nat
  pubKeys : List κ

/-- The loop of `(*DataAvailabilityKeyset).VerifySignature`: walk the public
keys with their indices, collecting the keys whose mask bit is set and
counting the non-signers. -/
def signersLoop {κ : Type} (signersMask : Nat) : List κ → Nat → List κ × Nat
  | [], _ => ([], 0)
  | pk :: rest, i =>
    let acc := signersLoop signersMask rest (i + 1)
    if (1 <<< i) &&& signersMask ≠ 0 then (pk :: acc.1, acc.2) else (acc.1, acc.2 + 1)

/-- `(*DataAvailabilityKeyset).VerifySignature`: select the signing keys by
mask bit, fail when the non-signers reach `AssumedHonest`, aggregate, and
check the BLS signature over `data`. -/
def VerifySignature {σ κ π : Type} (env : DasEnv σ κ π) (keyset : DataAvailabilityKeyset κ)
    (signersMask : Nat) (data : List Nat) (sig : σ) : Except String Unit :=
  let acc := signersLoop signersMask keyset.pubKeys 0
  if keyset.assumedHonest ≤ acc.2 then .error "not enough signers"
  else
    let aggregatedPubKey := env.aggregatePublicKeys acc.1
    match env.verifySig sig data aggregatedPubKey with
    | .error e => .error e
    | .ok false => .error "bad signature"
    | .ok true => .ok ()

/-- The key-reading loop of `dasutil.DeserializeKeyset`: for each key, a
2-byte big-endian length then that many key bytes, parsed by the BLS
library. -/
def readPubKeys {σ κ π : Type} (env : DasEnv σ κ π) (assumeKeysetValid : Bool) :
    Nat → List Nat → Except String (List κ × List Nat)
  | 0, rest => .ok ([], rest)
  | n + 1, rest =>
    match read2 rest with
    | .error e => .error e
    | .ok (b0, b1, r1) =>
      match readN (b0 * 256 + b1) r1 with
      | .error e => .error e
      | .ok (buf, r2) =>
        match env.pubKeyFromBytes buf assumeKeysetValid with
        | .error e => .error e
        | .ok pk =>
          match readPubKeys env assumeKeysetValid n r2 with
          | .error e => .error e
          | .ok (pks, r3) => .ok (pk :: pks, r3)

/-- `dasutil.DeserializeKeyset`: big-endian `assumedHonest` and `numKeys`,
reject more than 64 keys, then read the keys. -/
def DeserializeKeyset {σ κ π : Type} (env : DasEnv σ κ π) (input : List Nat)
    (assumeKeysetValid : Bool) : Except String (DataAvailabilityKeyset κ) :=
  match readUint64 input with
  | .error e => .error e
  | .ok (assumedHonest, r1) =>
    match readUint64 r1 with
    | .error e => .error e
    | .ok (numKeys, r2) =>
      if 64 < numKeys then .error "too many keys in serialized DataAvailabilityKeyset"
      else
        match readPubKeys env assumeKeysetValid numKeys r2 with
        | .error e => .error e
        | .ok (pubkeys, _) => .ok { assumedHonest := assumedHonest, pubKeys := pubkeys }

/-- Outcome of `RecoverPayloadFromDasBatch`.  `goPanic` marks the Go runtime
panic raised by the slice expression `sequencerMsg[40:]` on short inputs;
`softSkip` is the `(nil, nil, nil)` return; `fail` carries a returned error;
`ok` carries the payload and the (possibly absent) preimage map. -/
inductive RecoverResult (π : Type) where
  | goPanic
  | softSkip
  | fail (e : String)
  | ok (payload : List Nat) (preimages : Option π)

/-- The `getByHash` closure inside `RecoverPayloadFromDasBatch`.  For version
0 the lookup key is `dastree.FlatHashToTreeHash(hash)`; a failed first fetch
is retried under `hash` itself when the two differ; the fetched preimage is
checked against `hash` under the version's hash scheme.  The second
component instruments the embedding with the list of hashes handed to the
reader, in call order; the first component is exactly the Go result. -/
def getByHash {σ κ π : Type} (env : DasEnv σ κ π) (version : Nat) (hash : List Nat) :
    Except String (List Nat) × List (List Nat) :=
  let newHash := if version = 0 then env.flatToTree hash else hash
  let check : List Nat → Except String (List Nat) := fun preimage =>
    if (version = 0 ∧ env.keccak preimage ≠ hash) ∨
        (version = 1 ∧ env.treeHash preimage ≠ hash) then
      .error "result does not match expected hash"
    else .ok preimage
  match env.reader newHash with
  | .error e =>
    if hash ≠ newHash then
      match env.reader hash with
      | .error e2 => (.error e2, [newHash, hash])
      | .ok preimage => (check preimage, [newHash, hash])
    else (.error e, [newHash])
  | .ok preimage => (check preimage, [newHash])

/-- `dasutil.RecoverPayloadFromDasBatch`.  The input message is sliced at
byte 40 before any validation (a Go panic when shorter); certificate parse
failures, unknown versions, bad signatures and too-close timeouts soft-skip;
keyset-fetch, keyset-deserialization and payload-fetch failures are returned
as errors.  The timeout comparison is Go `uint64` arithmetic, hence the
`% 2 ^ 64`. -/
def RecoverPayloadFromDasBatch {σ κ π : Type} (env : DasEnv σ κ π) (batchNum : Nat)
    (sequencerMsg : List Nat) (preimages : Option π) (validateSeqMsg : Bool) :
    RecoverResult π :=
  if sequencerMsg.length < 40 then .goPanic
  else
    match DeserializeDASCertFrom env (sequencerMsg.drop 40) with
    | .error _ => .softSkip
    | .ok cert =>
      if 2 ≤ cert.version then .softSkip
      else
        match env.keysetFetcher cert.keysetHash with
        | .error e => .fail e
        | .ok keysetPreimage =>
          let preimages1 := preimages.map (fun m => env.recordHash m keysetPreimage)
          match DeserializeKeyset env keysetPreimage (!validateSeqMsg) with
          | .error e =>
            .fail ("couldn't deserialize keyset, err: " ++ e
              ++ ", batch num: " ++ toString batchNum)
          | .ok keyset =>
            match VerifySignature env keyset cert.signersMask
                (SerializeSignableFields cert) cert.sig with
            | .error _ => .softSkip
            | .ok _ =>
              let maxTimestamp := beU64 ((sequencerMsg.drop 8).take 8)
              if cert.timeout <
                  (maxTimestamp + MinLifetimeSecondsForDataAvailabilityCert) % 2 ^ 64 then
                .softSkip
              else
                match (getByHash env cert.version cert.dataHash).1 with
                | .error e => .fail e
                | .ok payload =>
                  let preimages2 := preimages1.map (fun m =>
                    if cert.version = 0 then
                      let treeLeaf := env.flatToTreeLeaf cert.dataHash
                      env.record (env.record m cert.dataHash payload)
                        (env.keccak treeLeaf) treeLeaf
                    else env.recordHash m payload)
                  .ok payload preimages2

/-! The signed Redis cache (`RedisStorageService` in `src/unnamed/part_001`). -/

/-- Value of a hex digit (models the byte table of Go `encoding/hex`). -/
def hexVal (c : Char) : Option Nat :=
  if '0' ≤ c ∧ c ≤ '9' then some (c.toNat - '0'.toNat)
  else if 'a' ≤ c ∧ c ≤ 'f' then some (c.toNat - 'a'.toNat + 10)
  else if 'A' ≤ c ∧ c ≤ 'F' then some (c.toNat - 'A'.toNat + 10)
  else none

/-- Go `encoding/hex.Decode` as used by go-ethereum's `common.FromHex`: bytes
are decoded pair by pair; at the first invalid digit (or a dangling single
digit) the error is discarded and the bytes decoded so far are kept. -/
def decodeHexPairs : List Char → List Nat
  | c1 :: c2 :: rest =>
    match hexVal c1, hexVal c2 with
    | some hi, some lo => (hi * 16 + lo) :: decodeHexPairs rest
    | _, _ => []
  | _ => []

/-- go-ethereum `common.FromHex`: strip a `0x`/`0X` prefix, left-pad odd-length
input with one `0` digit, then hex-decode. -/
def fromHex (s : List Char) : List Nat :=
  let s := match s with
    | '0' :: 'x' :: rest => rest
    | '0' :: 'X' :: rest => rest
    | other => other
  let s := if s.length % 2 = 1 then '0' :: s else s
  decodeHexPairs s

/-- go-ethereum `common.BytesToHash`: keep the last 32 bytes and left-pad with
zero bytes to exactly 32. -/
def bytesToHash (b : List Nat) : List Nat :=
  let b := if 32 < b.length then b.drop (b.length - 32) else b
  List.replicate (32 - b.length) 0 ++ b

/-- go-ethereum `common.HexToHash`, the parse applied to the cache's
`key-config` option. -/
def hexToHash (s : String) : List Nat :=
  bytesToHash (fromHex s.toList)

/-- The Redis client surface the cache uses: `GET key` and
`SET key value EX expiration`. -/
structure RedisClientModel where
  get : List Nat → Except String (List Nat)
  set : List Nat → List Nat → Nat → Except String Unit

/-- The base `StorageService` surface the cache wraps. -/
structure BaseStorageModel where
  getByHash : List Nat → Except String (List Nat)
  put : List Nat → Nat → Except String Unit

/-- `das.RedisConfig`. -/
structure RedisConfig where
  enable : Bool
  url : String
  expiration : Nat
  keyConfig : String

/-- `das.RedisStorageService`. -/
structure RedisStorageService where
  baseStorageService : BaseStorageModel
  expiration : Nat
  signingKey : List Nat
  client : RedisClientModel

/-- The external pieces the cache calls: `hmac.New(sha3.NewLegacyKeccak256,
key)` as a keyed MAC over the message, and `dastree.Hash`. -/
structure RedisEnv where
  hmacKeccak : List Nat → List Nat → List Nat
  treeHash : List Nat → List Nat

/-- `das.NewRedisStorageService`: build the client from the URL, parse the
signing key with `common.HexToHash`, and reject a resulting zero hash. -/
def newRedisStorageService (redisClientFromURL : String → Except String RedisClientModel)
    (redisConfig : RedisConfig) (baseStorageService : BaseStorageModel) :
    Except String RedisStorageService :=
  match redisClientFromURL redisConfig.url with
  | .error e => .error e
  | .ok client =>
    let signingKey := hexToHash redisConfig.keyConfig
    if signingKey = List.replicate 32 0 then
      .error "signing key file contents are not 32 bytes of hex"
    else
      .ok { baseStorageService := baseStorageService
            expiration := redisConfig.expiration
            signingKey := signingKey
            client := client }

/-- `(*RedisStorageService).signMessage`: `mac.Sum(message)` appends the
32-byte tag to the message. -/
def signMessage (env : RedisEnv) (rs : RedisStorageService) (message : List Nat) : List Nat :=
  message ++ env.hmacKeccak rs.signingKey message

/-- `(*RedisStorageService).verifyMessageSignature`: strip the last 32 bytes
as the tag and compare against the recomputed HMAC. -/
def verifyMessageSignature (env : RedisEnv) (rs : RedisStorageService) (data : List Nat) :
    Except String (List Nat) :=
  if data.length < 32 then .error "data is too short to contain message signature"
  else
    let message := data.take (data.length - 32)
    let haveHmac := data.drop (data.length - 32)
    if haveHmac = env.hmacKeccak rs.signingKey message then .ok message
    else .error "HMAC signature doesn't match expected value(s)"

/-- `(*RedisStorageService).getVerifiedData`: Redis `GET` then HMAC check. -/
def getVerifiedData (env : RedisEnv) (rs : RedisStorageService) (key : List Nat) :
    Except String (List Nat) :=
  match rs.client.get key with
  | .error e => .error e
  | .ok data => verifyMessageSignature env rs data

/-- `(*RedisStorageService).GetByHash`: serve a verified cache hit; otherwise
fall through to the base store and, on success, refresh the cache entry —
returning the refresh `SET` error when it fails. -/
def RedisStorageService.getByHashOp (env : RedisEnv) (rs : RedisStorageService)
    (key : List Nat) : Except String (List Nat) :=
  match getVerifiedData env rs key with
  | .ok ret => .ok ret
  | .error _ =>
    match rs.baseStorageService.getByHash key with
    | .error e => .error e
    | .ok ret =>
      match rs.client.set key (signMessage env rs ret) rs.expiration with
      | .error e => .error e
      | .ok _ => .ok ret

/-- `(*RedisStorageService).Put`: base put first (its failure is returned);
then the signed cache `SET`, whose error is logged and returned. -/
def RedisStorageService.putOp (env : RedisEnv) (rs : RedisStorageService)
    (value : List Nat) (timeout : Nat) : Except String Unit :=
  match rs.baseStorageService.put value timeout with
  | .error e => .error e
  | .ok _ =>
    match rs.client.set (env.treeHash value) (signMessage env rs value) rs.expiration with
    | .error e => .error e
    | .ok _ => .ok ()

/-! Concrete fixtures used by witnesses and counterexamples. -/

/-- A serialized keyset: `assumedHonest = 1`, one public key of length 0. -/
def keysetBytes1 : List Nat :=
  [0, 0, 0, 0, 0, 0, 0, 1] ++ [0, 0, 0, 0, 0, 0, 0, 1] ++ [0, 0]

/-- A concrete environment: hashes collapse to the zero hash, the flat→tree
bridge is the identity, BLS parsing accepts anything and verification
succeeds, the reader serves the payload `[1]`, the keyset fetcher serves
`keysetBytes1`. -/
def testEnv : DasEnv (List Nat) Unit Unit where
  keccak := fun _ => List.replicate 32 0
  treeHash := fun _ => List.replicate 32 0
  flatToTree := fun h => h
  flatToTreeLeaf := fun h => h
  recordHash := fun m _ => m
  record := fun m _ _ => m
  sigFromBytes := fun l => .ok l
  sigToBytes := fun s => s
  pubKeyFromBytes := fun _ _ => .ok ()
  aggregatePublicKeys := fun _ => ()
  verifySig := fun _ _ _ => .ok true
  reader := fun _ => .ok [1]
  keysetFetcher := fun _ => .ok keysetBytes1

/-- Serialized version-0 certificate: zero keyset hash and data hash,
timeout `604800`, signers mask `3`, zero signature bytes. -/
def certBytes1 : List Nat :=
  [128] ++ List.replicate 32 0 ++ List.replicate 32 0
    ++ [0, 0, 0, 0, 0, 9, 58, 128] ++ [0, 0, 0, 0, 0, 0, 0, 3] ++ List.replicate 96 0

/-- Sequencer message embedding `certBytes1` after 40 zero framing bytes
(`max_timestamp = 0`). -/
def msg1 : List Nat := List.replicate 40 0 ++ certBytes1

/-- The certificate `certBytes1` deserializes to. -/
def cert1 : DataAvailabilityCertificate (List Nat) :=
  { keysetHash := List.replicate 32 0
    dataHash := List.replicate 32 0
    timeout := 604800
    signersMask := 3
    sig := List.replicate 96 0
    version := 0 }

/-- The keyset `keysetBytes1` deserializes to. -/
def keyset1 : DataAvailabilityKeyset Unit := { assumedHonest := 1, pubKeys := [()] }

/-- Serialized version-0 certificate with timeout `604799` and signers mask
`1`. -/
def certBytes4 : List Nat :=
  [128] ++ List.replicate 32 0 ++ List.replicate 32 0
    ++ [0, 0, 0, 0, 0, 9, 58, 127] ++ [0, 0, 0, 0, 0, 0, 0, 1] ++ List.replicate 96 0

/-- Sequencer message embedding `certBytes4` with `max_timestamp =
2 ^ 64 - 1` (bytes 8..16 all `0xFF`). -/
def msg4 : List Nat :=
  List.replicate 8 0 ++ List.replicate 8 255 ++ List.replicate 24 0 ++ certBytes4

/-- The certificate `certBytes4` deserializes to. -/
def cert4 : DataAvailabilityCertificate (List Nat) :=
  { keysetHash := List.replicate 32 0
    dataHash := List.replicate 32 0
    timeout := 604799
    signersMask := 1
    sig := List.replicate 96 0
    version := 0 }

/-- Sequencer message embedding `certBytes4` with `max_timestamp = 0`. -/
def msg4b : List Nat := List.replicate 40 0 ++ certBytes4

/-- Environment for observing `getByHash` lookups: the flat→tree bridge
prepends a byte and every read fails. -/
def env5 : DasEnv (List Nat) Unit Unit :=
  { testEnv with flatToTree := fun h => 0 :: h, reader := fun _ => .error "not found" }

/-- A well-formed version-1 certificate for round-trip witnesses. -/
def cert6 : DataAvailabilityCertificate (List Nat) :=
  { keysetHash := List.replicate 32 1
    dataHash := List.replicate 32 2
    timeout := 77
    signersMask := 5
    sig := List.replicate 96 7
    version := 1 }

/-- Keyset bytes with `num_keys = 65`. -/
def keysetBytes65 : List Nat :=
  [0, 0, 0, 0, 0, 0, 0, 1] ++ [0, 0, 0, 0, 0, 0, 0, 65]

/-- The count of non-signers the `VerifySignature` loop computes: indices
below `n` whose bit of `mask` is clear. -/
def numNonSigners (n mask : Nat) : Nat :=
  ((List.range n).filter (fun i => (1 <<< i) &&& mask == 0)).length

/-! Fixtures for the Redis cache claims. -/

/-- Concrete HMAC and tree hash for cache scenarios. -/
def redisEnv0 : RedisEnv :=
  { hmacKeccak := fun _ m => List.replicate 32 (m.length % 256)
    treeHash := fun _ => List.replicate 32 0 }

/-- A base store that accepts every put and serves `[5]`. -/
def baseOk : BaseStorageModel :=
  { getByHash := fun _ => .ok [5], put := fun _ _ => .ok () }

/-- A Redis client whose reads miss and whose writes fail. -/
def clientSetFails : RedisClientModel :=
  { get := fun _ => .error "cache miss", set := fun _ _ _ => .error "redis down" }

/-- Cache over `baseOk` with the failing client. -/
def rsSetFails : RedisStorageService :=
  { baseStorageService := baseOk
    expiration := 3600
    signingKey := List.replicate 32 1
    client := clientSetFails }

/-- A client factory that always succeeds (a valid Redis URL). -/
def clientFromURLOk : String → Except String RedisClientModel :=
  fun _ => .ok clientSetFails

/-- Config whose signing key is the two-character hex string `01`. -/
def cfg01 : RedisConfig :=
  { enable := true, url := "redis://localhost", expiration := 3600, keyConfig := "01" }

/-- Config whose signing key is 64 `0` hex characters (32 zero bytes). -/
def cfgZeros : RedisConfig :=
  { enable := true, url := "redis://localhost", expiration := 3600
    keyConfig := String.mk (List.replicate 64 '0') }

/-! Helper lemmas. -/

theorem beBytes_length (n v : Nat) : (beBytes n v).length = n := by
  induction n generalizing v with
  | zero => rfl
  | succ n ih => simp [beBytes, ih]

theorem readN_append {l r : List Nat} {n : Nat} (h : l.length = n) :
    readN n (l ++ r) = .ok (l, r) := by
  subst h
  rw [readN, if_neg (by simp), List.take_left, List.drop_left]

theorem readN_exact {l : List Nat} {n : Nat} (h : l.length = n) :
    readN n l = .ok (l, []) := by
  subst h
  rw [readN, if_neg (by simp), List.take_length, List.drop_length]

theorem beU64_append (l : List Nat) (b : Nat) : beU64 (l ++ [b]) = beU64 l * 256 + b := by
  simp [beU64, List.foldl_append]

theorem beU64_beBytes (n v : Nat) : beU64 (beBytes n v) = v % 256 ^ n := by
  induction n generalizing v with
  | zero => simp [beBytes, beU64, Nat.mod_one]
  | succ n ih =>
    rw [beBytes, beU64_append, ih, pow_succ, mul_comm (256 ^ n) 256, Nat.mod_mul]
    have := Nat.mod_lt v (show 0 < 256 by norm_num)
    omega

theorem beU64_beBytes8 {v : Nat} (h : v < 2 ^ 64) : beU64 (beBytes 8 v) = v := by
  rw [beU64_beBytes]
  exact Nat.mod_eq_of_lt (lt_of_lt_of_le h (by norm_num))

/-! Claim theorems. -/

/-- C2 counterexample: the base store accepts the put, the Redis `SET` fails,
and `Put` returns the Redis error rather than success. -/
theorem c2_counterexample :
    rsSetFails.baseStorageService.put [1] 7 = .ok () ∧
    RedisStorageService.putOp redisEnv0 rsSetFails [1] 7 = .error "redis down" :=
  ⟨rfl, rfl⟩

/-- C2 amended: when the base store's put succeeds, `Put` returns exactly the
result of the Redis `SET` of the HMAC-signed entry — success only when the
`SET` also succeeds, and the `SET` error (after logging it) otherwise. -/
theorem c2_put_returns_redis_error (env : RedisEnv) (rs : RedisStorageService)
    (value : List Nat) (timeout : Nat)
    (hbase : rs.baseStorageService.put value timeout = .ok ()) :
    RedisStorageService.putOp env rs value timeout =
      rs.client.set (env.treeHash value) (signMessage env rs value) rs.expiration := by
  unfold RedisStorageService.putOp
  rw [hbase]
  cases hset : rs.client.set (env.treeHash value) (signMessage env rs value) rs.expiration with
  | error e => rfl
  | ok u => rfl

/-- C2 witness: a concrete put whose Redis `SET` fails. -/
theorem c2_witness :
    RedisStorageService.putOp redisEnv0 rsSetFails [2] 9 =
      rsSetFails.client.set (redisEnv0.treeHash [2])
        (signMessage redisEnv0 rsSetFails [2]) rsSetFails.expiration :=
  c2_put_returns_redis_error redisEnv0 rsSetFails [2] 9 rfl

/-- C3 counterexample: the cache read misses, the base store serves the value,
the refresh `SET` fails, and `GetByHash` returns the `SET` error instead of
the base store's value. -/
theorem c3_counterexample :
    rsSetFails.baseStorageService.getByHash (List.replicate 32 2) = .ok [5] ∧
    RedisStorageService.getByHashOp redisEnv0 rsSetFails (List.replicate 32 2) =
      .error "redis down" :=
  ⟨rfl, rfl⟩

/-- C3 amended: on a cache miss or auth failure with a successful base fetch,
`GetByHash` returns the base store's value only when the cache-refresh `SET`
succeeds; a refresh failure is returned as the call's error. -/
theorem c3_get_requires_refresh (env : RedisEnv) (rs : RedisStorageService)
    (key ret : List Nat) (e : String)
    (hmiss : getVerifiedData env rs key = .error e)
    (hbase : rs.baseStorageService.getByHash key = .ok ret) :
    (∀ u, rs.client.set key (signMessage env rs ret) rs.expiration = .ok u →
      RedisStorageService.getByHashOp env rs key = .ok ret) ∧
    (∀ e2, rs.client.set key (signMessage env rs ret) rs.expiration = .error e2 →
      RedisStorageService.getByHashOp env rs key = .error e2) := by
  unfold RedisStorageService.getByHashOp
  constructor
  · intro u hset
    simp only [hmiss, hbase, hset]
  · intro e2 hset
    simp only [hmiss, hbase, hset]

/-- C3 witness: a concrete miss-then-base-hit read whose refresh fails. -/
theorem c3_witness :
    RedisStorageService.getByHashOp redisEnv0 rsSetFails (List.replicate 32 3) =
      .error "redis down" :=
  (c3_get_requires_refresh redisEnv0 rsSetFails (List.replicate 32 3) [5]
    "cache miss" rfl rfl).2 "redis down" rfl

/-- C8 counterexample: the two-character key `01` is not 32 bytes of hex yet
construction succeeds, while 64 zero hex characters are exactly 32 bytes of
hex yet construction fails. -/
theorem c8_counterexample :
    (newRedisStorageService clientFromURLOk cfg01 baseOk).isOk = true ∧
    cfg01.keyConfig.length = 2 ∧
    (newRedisStorageService clientFromURLOk cfgZeros baseOk).isOk = false ∧
    cfgZeros.keyConfig.length = 64 :=
  ⟨rfl, rfl, rfl, rfl⟩

/-- C8 amended: given a URL the client factory accepts, construction fails
exactly when `common.HexToHash(key_config)` is the zero hash (empty, invalid,
or all-zero hex), and otherwise succeeds with that parsed signing key. -/
theorem c8_construct_iff_nonzero_key (f : String → Except String RedisClientModel)
    (cfg : RedisConfig) (base : BaseStorageModel) (client : RedisClientModel)
    (hurl : f cfg.url = .ok client) :
    (hexToHash cfg.keyConfig = List.replicate 32 0 →
      newRedisStorageService f cfg base =
        .error "signing key file contents are not 32 bytes of hex") ∧
    (hexToHash cfg.keyConfig ≠ List.replicate 32 0 →
      newRedisStorageService f cfg base = .ok
        { baseStorageService := base
          expiration := cfg.expiration
          signingKey := hexToHash cfg.keyConfig
          client := client }) := by
  unfold newRedisStorageService
  simp only [hurl]
  constructor
  · intro h
    rw [if_pos h]
  · intro h
    rw [if_neg h]

/-- C8 witness: the short key `01` parses to a nonzero hash and the cache is
built with it. -/
theorem c8_witness :
    newRedisStorageService clientFromURLOk cfg01 baseOk = .ok
      { baseStorageService := baseOk
        expiration := cfg01.expiration
        signingKey := hexToHash cfg01.keyConfig
        client := clientSetFails } :=
  (c8_construct_iff_nonzero_key clientFromURLOk cfg01 baseOk clientSetFails rfl).2
    (by decide)

/-- C7: the signable bytes are the data hash, then the 8 big-endian timeout
bytes, then the version byte exactly when the version is nonzero; the keyset
hash and signers mask do not influence them. -/
theorem c7_signable_fields_layout {σ : Type} (c : DataAvailabilityCertificate σ)
    (h : c.dataHash.length = 32) :
    SerializeSignableFields c =
      c.dataHash ++ (beBytes 8 c.timeout ++ (if c.version ≠ 0 then [c.version] else [])) ∧
    (SerializeSignableFields c).take 32 = c.dataHash ∧
    ((SerializeSignableFields c).drop 32).take 8 = beBytes 8 c.timeout ∧
    (SerializeSignableFields c).drop 40 = (if c.version ≠ 0 then [c.version] else []) ∧
    ∀ kh sm, SerializeSignableFields
        { c with keysetHash := kh, signersMask := sm } = SerializeSignableFields c := by
  have h1 : SerializeSignableFields c =
      c.dataHash ++ (beBytes 8 c.timeout ++ (if c.version ≠ 0 then [c.version] else [])) := by
    unfold SerializeSignableFields
    by_cases hv : c.version = 0 <;> simp [hv, List.append_assoc]
  refine ⟨h1, ?_, ?_, ?_, ?_⟩
  · rw [h1, ← h, List.take_left]
  · rw [h1, ← h, List.drop_left, List.take_left' (beBytes_length 8 c.timeout)]
  · rw [h1, show 40 = 32 + 8 by rfl, ← List.drop_drop, ← h, List.drop_left,
      List.drop_left' (beBytes_length 8 c.timeout)]
  · intro kh sm
    unfold SerializeSignableFields
    rfl

/-- C7 witness: the layout at a concrete version-1 certificate. -/
theorem c7_witness :
    SerializeSignableFields cert6 =
      cert6.dataHash ++ (beBytes 8 cert6.timeout ++
        (if cert6.version ≠ 0 then [cert6.version] else [])) :=
  (c7_signable_fields_layout cert6 (by decide)).1

/-- C9: any keyset stream long enough to carry its header whose second
big-endian `u64` (the key count) exceeds 64 is rejected. -/
theorem c9_keyset_too_many_keys {σ κ π : Type} (env : DasEnv σ κ π) (input : List Nat)
    (b : Bool) (hlen : 16 ≤ input.length)
    (hnk : 64 < beU64 ((input.drop 8).take 8)) :
    DeserializeKeyset env input b =
      .error "too many keys in serialized DataAvailabilityKeyset" := by
  have h1 : readUint64 input = .ok (beU64 (input.take 8), input.drop 8) := by
    unfold readUint64
    rw [readN, if_neg (by omega)]
  have h2 : readUint64 (input.drop 8) =
      .ok (beU64 ((input.drop 8).take 8), (input.drop 8).drop 8) := by
    unfold readUint64
    rw [readN, if_neg (by simp [List.length_drop]; omega)]
  unfold DeserializeKeyset
  rw [h1]
  simp only [h2]
  rw [if_pos hnk]

/-- C9 witness: a 16-byte keyset header with `num_keys = 65` is rejected. -/
theorem c9_witness :
    DeserializeKeyset testEnv keysetBytes65 true =
      .error "too many keys in serialized DataAvailabilityKeyset" :=
  c9_keyset_too_many_keys testEnv keysetBytes65 true (by decide) (by decide)

/-- C6: serializing any certificate and deserializing the result restores it
field for field, provided it is well-formed: 32-byte hashes, `uint64`
timeout and mask, byte-sized version, and a signature the BLS library
round-trips through its 96-byte encoding. -/
theorem c6_cert_roundtrip {σ κ π : Type} (env : DasEnv σ κ π)
    (c : DataAvailabilityCertificate σ)
    (hkh : c.keysetHash.length = 32) (hdh : c.dataHash.length = 32)
    (ht : c.timeout < 2 ^ 64) (hm : c.signersMask < 2 ^ 64) (hv : c.version < 256)
    (hsl : (env.sigToBytes c.sig).length = 96)
    (hsig : env.sigFromBytes (env.sigToBytes c.sig) = .ok c.sig) :
    DeserializeDASCertFrom env (Serialize env c) = .ok c := by
  obtain ⟨kh, dh, t, m, s, v⟩ := c
  simp only at hkh hdh ht hm hv hsl hsig
  by_cases hv0 : v = 0
  · subst hv0
    have hser : Serialize env ⟨kh, dh, t, m, s, 0⟩ =
        128 :: (kh ++ (dh ++ (beBytes 8 t ++ (beBytes 8 m ++ env.sigToBytes s)))) := by
      simp [Serialize, SerializeSignableFields, DASMessageHeaderFlag, List.append_assoc]
    rw [hser]
    simp only [DeserializeDASCertFrom, readByte,
      show isDASMessageHeaderByte 128 = true from by decide,
      show isTreeDASMessageHeaderByte 128 = false from by decide,
      Bool.not_true, Bool.not_false, if_true, if_false,
      readN_append hkh, readN_append hdh, readN_append (beBytes_length 8 t),
      readN_append (beBytes_length 8 m), readN_exact hsl, hsig,
      beU64_beBytes8 ht, beU64_beBytes8 hm]
    simp [readN_append (beBytes_length 8 m), readN_exact hsl, hsig, beU64_beBytes8 hm]
  · have hser : Serialize env ⟨kh, dh, t, m, s, v⟩ =
        136 :: (kh ++ (dh ++ (beBytes 8 t ++ (v :: (beBytes 8 m ++ env.sigToBytes s))))) := by
      simp [Serialize, SerializeSignableFields, hv0, DASMessageHeaderFlag,
        TreeDASMessageHeaderFlag, List.append_assoc,
        show (128 ||| 8 : Nat) = 136 from by decide]
    rw [hser]
    simp only [DeserializeDASCertFrom, readByte,
      show isDASMessageHeaderByte 136 = true from by decide,
      show isTreeDASMessageHeaderByte 136 = true from by decide,
      Bool.not_true, Bool.not_false, if_true, if_false,
      readN_append hkh, readN_append hdh, readN_append (beBytes_length 8 t),
      readN_append (beBytes_length 8 m), readN_exact hsl, hsig,
      beU64_beBytes8 ht, beU64_beBytes8 hm]
    simp [readN_append (beBytes_length 8 m), readN_exact hsl, hsig, beU64_beBytes8 hm]

/-- C6 witness: round-trip of a concrete version-1 certificate. -/
theorem c6_witness :
    DeserializeDASCertFrom testEnv (Serialize testEnv cert6) = .ok cert6 :=
  c6_cert_roundtrip testEnv cert6 (by decide) (by decide) (by decide) (by decide)
    (by decide) (by decide) rfl

/-- C5: in the recovery payload fetch, version 0 first looks up
`flat_to_tree(hash)`; any error on that first fetch (not only NotFound)
triggers exactly one retry under `hash` itself, while a successful first
fetch triggers none; version 1 performs a single lookup under `hash`
itself. -/
theorem c5_lookup_and_retry {σ κ π : Type} (env : DasEnv σ κ π) (h : List Nat)
    (hne : env.flatToTree h ≠ h) :
    (∀ e, env.reader (env.flatToTree h) = .error e →
      (getByHash env 0 h).2 = [env.flatToTree h, h]) ∧
    (∀ p, env.reader (env.flatToTree h) = .ok p →
      (getByHash env 0 h).2 = [env.flatToTree h]) ∧
    (∀ h2, (getByHash env 1 h2).2 = [h2]) := by
  refine ⟨?_, ?_, ?_⟩
  · intro e herr
    simp [getByHash, herr, Ne.symm hne]
    cases env.reader h <;> rfl
  · intro p hok
    simp [getByHash, hok]
  · intro h2
    unfold getByHash
    cases henv : env.reader h2 <;> simp [henv]

/-- C5 witness: with a bridge that prepends a byte and an always-failing
reader, version 0 queries the bridged hash then the raw hash, and version 1
queries only the raw hash. -/
theorem c5_witness :
    (getByHash env5 0 [1]).2 = [[0, 1], [1]] ∧ (getByHash env5 1 [2]).2 = [[2]] :=
  ⟨(c5_lookup_and_retry env5 [1] (by decide)).1 "not found" rfl,
   (c5_lookup_and_retry env5 [1] (by decide)).2.2 [2]⟩

/-- C10: the recovery entry point panics (slice out of range on
`sequencerMsg[40:]`) exactly on messages shorter than 40 bytes; for all
longer messages every outcome is a soft-skip, an error return or a payload,
never a panic. -/
theorem c10_forty_byte_precondition {σ κ π : Type} (env : DasEnv σ κ π) (batchNum : Nat)
    (msg : List Nat) (pre : Option π) (v : Bool) :
    (msg.length < 40 → RecoverPayloadFromDasBatch env batchNum msg pre v = .goPanic) ∧
    (40 ≤ msg.length → RecoverPayloadFromDasBatch env batchNum msg pre v ≠ .goPanic) := by
  constructor
  · intro hshort
    unfold RecoverPayloadFromDasBatch
    rw [if_pos hshort]
  · intro hlong hcontra
    unfold RecoverPayloadFromDasBatch at hcontra
    rw [if_neg (by omega)] at hcontra
    repeat' split at hcontra
    all_goals simp_all [ite_eq_iff]

/-- C10 witness: the empty message panics; the 185-byte `msg1` does not. -/
theorem c10_witness :
    RecoverPayloadFromDasBatch testEnv 0 [] none false = .goPanic ∧
    RecoverPayloadFromDasBatch testEnv 0 msg1 none false ≠ .goPanic :=
  ⟨(c10_forty_byte_precondition testEnv 0 [] none false).1 (by decide),
   (c10_forty_byte_precondition testEnv 0 msg1 none false).2 (by decide)⟩

theorem signersLoop_snd {κ : Type} (mask : Nat) (l : List κ) (i : Nat) :
    (signersLoop mask l i).2 =
      ((List.range' i l.length).filter (fun j => (1 <<< j) &&& mask == 0)).length := by
  induction l generalizing i with
  | nil => simp [signersLoop]
  | cons pk rest ih =>
    by_cases hbit : (1 <<< i) &&& mask = 0 <;>
      simp [signersLoop, hbit, ih, List.range'_succ, List.filter_cons]

theorem verifySignature_ok_bound {σ κ π : Type} (env : DasEnv σ κ π)
    (ks : DataAvailabilityKeyset κ) (mask : Nat) (data : List Nat) (sig : σ) (u : Unit)
    (h : VerifySignature env ks mask data sig = .ok u) :
    numNonSigners ks.pubKeys.length mask < ks.assumedHonest := by
  unfold VerifySignature at h
  dsimp only at h
  split at h
  · exact absurd h (by simp)
  · rename_i hle
    rw [numNonSigners, List.range_eq_range', ← signersLoop_snd mask ks.pubKeys 0]
    omega

/-- C1 counterexample: a batch accepted end to end whose certificate has
signers mask `3` while the keyset holds a single key, so bit 1 sits at or
beyond `N = 1` and `signers_mask >>> N ≠ 0`. -/
theorem c1_counterexample :
    RecoverPayloadFromDasBatch testEnv 0 msg1 none false = .ok [1] none ∧
    DeserializeDASCertFrom testEnv (msg1.drop 40) = .ok cert1 ∧
    testEnv.keysetFetcher cert1.keysetHash = .ok keysetBytes1 ∧
    DeserializeKeyset testEnv keysetBytes1 true = .ok keyset1 ∧
    keyset1.pubKeys.length = 1 ∧ cert1.signersMask = 3 ∧
    cert1.signersMask >>> keyset1.pubKeys.length ≠ 0 :=
  ⟨rfl, rfl, rfl, rfl, rfl, rfl, by decide⟩

/-- C1 amended: acceptance only bounds the mask over the first `N` bit
positions — for every accepted certificate the number of positions below
`N` whose mask bit is clear stays below `assumed_honest`; bits at or beyond
`N` are never examined and may be set. -/
theorem c1_amended_nonsigners {σ κ π : Type} (env : DasEnv σ κ π) (batchNum : Nat)
    (msg : List Nat) (pre : Option π) (v : Bool)
    (cert : DataAvailabilityCertificate σ) (kb : List Nat)
    (keyset : DataAvailabilityKeyset κ) (payload : List Nat) (pim : Option π)
    (hcert : DeserializeDASCertFrom env (msg.drop 40) = .ok cert)
    (hkb : env.keysetFetcher cert.keysetHash = .ok kb)
    (hks : DeserializeKeyset env kb (!v) = .ok keyset)
    (hrec : RecoverPayloadFromDasBatch env batchNum msg pre v = .ok payload pim) :
    numNonSigners keyset.pubKeys.length cert.signersMask < keyset.assumedHonest := by
  unfold RecoverPayloadFromDasBatch at hrec
  split at hrec
  · simp at hrec
  · split at hrec
    · simp at hrec
    · rename_i cert' hcert'
      rw [hcert] at hcert'
      injection hcert' with hc
      subst hc
      split at hrec
      · simp at hrec
      · split at hrec
        · simp at hrec
        · rename_i kb' hkb'
          rw [hkb] at hkb'
          injection hkb' with hk
          subst hk
          split at hrec
          · simp at hrec
          · rename_i keyset' hks'
            rw [hks] at hks'
            injection hks' with hs
            subst hs
            split at hrec
            · simp at hrec
            · rename_i u hvs
              exact verifySignature_ok_bound env keyset cert.signersMask
                (SerializeSignableFields cert) cert.sig u hvs

/-- C1 witness: the counterexample scenario still satisfies the amended
bound — zero clear bits below `N = 1`, below `assumed_honest = 1`. -/
theorem c1_witness :
    numNonSigners keyset1.pubKeys.length cert1.signersMask < keyset1.assumedHonest :=
  c1_amended_nonsigners testEnv 0 msg1 none false cert1 keysetBytes1 keyset1 [1] none
    rfl rfl rfl rfl

/-- C4 counterexample: with `max_timestamp = 2 ^ 64 - 1` the Go `uint64` sum
wraps to `604799`, so a certificate with timeout `604799` is accepted even
though its timeout is far below `max_timestamp + 604800` as unbounded
integers. -/
theorem c4_counterexample :
    RecoverPayloadFromDasBatch testEnv 0 msg4 none false = .ok [1] none ∧
    DeserializeDASCertFrom testEnv (msg4.drop 40) = .ok cert4 ∧
    beU64 ((msg4.drop 8).take 8) = 2 ^ 64 - 1 ∧
    cert4.timeout = 604799 ∧
    cert4.timeout <
      beU64 ((msg4.drop 8).take 8) + MinLifetimeSecondsForDataAvailabilityCert :=
  ⟨rfl, rfl, by decide, rfl, by decide⟩

/-- C4 amended: the lifetime check compares `uint64` values, so acceptance
guarantees `timeout ≥ (max_timestamp + 604800) mod 2 ^ 64`, and whenever
`timeout < (max_timestamp + 604800) mod 2 ^ 64` at the check point the
recovery soft-skips. -/
theorem c4_amended_wrapped_timeout {σ κ π : Type} (env : DasEnv σ κ π) (batchNum : Nat)
    (msg : List Nat) (pre : Option π) (v : Bool)
    (cert : DataAvailabilityCertificate σ) (kb : List Nat)
    (keyset : DataAvailabilityKeyset κ) :
    (∀ payload pim,
      DeserializeDASCertFrom env (msg.drop 40) = .ok cert →
      RecoverPayloadFromDasBatch env batchNum msg pre v = .ok payload pim →
      (beU64 ((msg.drop 8).take 8) + MinLifetimeSecondsForDataAvailabilityCert) % 2 ^ 64 ≤
        cert.timeout) ∧
    (40 ≤ msg.length →
      DeserializeDASCertFrom env (msg.drop 40) = .ok cert →
      cert.version < 2 →
      env.keysetFetcher cert.keysetHash = .ok kb →
      DeserializeKeyset env kb (!v) = .ok keyset →
      VerifySignature env keyset cert.signersMask (SerializeSignableFields cert) cert.sig =
        .ok () →
      cert.timeout <
        (beU64 ((msg.drop 8).take 8) + MinLifetimeSecondsForDataAvailabilityCert) % 2 ^ 64 →
      RecoverPayloadFromDasBatch env batchNum msg pre v = .softSkip) := by
  constructor
  · intro payload pim hcert hrec
    unfold RecoverPayloadFromDasBatch at hrec
    split at hrec
    · simp at hrec
    · split at hrec
      · simp at hrec
      · rename_i cert' hcert'
        rw [hcert] at hcert'
        injection hcert' with hc
        subst hc
        split at hrec
        · simp at hrec
        · split at hrec
          · simp at hrec
          · split at hrec
            · simp at hrec
            · split at hrec
              · simp at hrec
              · split at hrec
                · dsimp only at hrec
                  split at hrec <;> simp at hrec
                · dsimp only at hrec
                  split at hrec
                  · simp at hrec
                  · rename_i hto
                    omega
  · intro hlen hcert hv2 hkb hks hvs hto
    unfold RecoverPayloadFromDasBatch
    rw [if_neg (by omega)]
    simp [hcert, hkb, hks, hvs, Nat.not_le.mpr hv2]
    intro h
    omega

/-- C4 witness: the accepted `msg1` satisfies the wrapped lower bound, and a
certificate whose timeout undercuts the wrapped bound is soft-skipped. -/
theorem c4_witness :
    (beU64 ((msg1.drop 8).take 8) + MinLifetimeSecondsForDataAvailabilityCert) % 2 ^ 64 ≤
      cert1.timeout ∧
    RecoverPayloadFromDasBatch testEnv 0 msg4b none false = .softSkip :=
  ⟨(c4_amended_wrapped_timeout testEnv 0 msg1 none false cert1 keysetBytes1 keyset1).1
      [1] none rfl rfl,
   (c4_amended_wrapped_timeout testEnv 0 msg4b none false cert4 keysetBytes1 keyset1).2
      (by decide) rfl (by decide) rfl rfl rfl (by decide)⟩

end DasSpec
